import Mathlib

/-!
Shallow embedding of the Google Maps lead scraper (src/maps_api.py).

The browser automation surface (Playwright) is modelled as explicit
environment data: each listing carries the texts its selectors would
yield, each page carries a detail-panel query function, and each term
carries its navigation outcome, its initial result cards and the
outcomes of the successive load-more rounds.  A selector query that
times out or raises is modelled as none; a query that finds a visible
element with text t is modelled as some t.  All functions below are
translated from maps_api.py; line references point into that file.
-/

/-- Substring containment test on strings, modelling the Python
membership test of one string in another (case-sensitive). -/
def containsSub (needle haystack : String) : Bool :=
  haystack.data.tails.any (fun t => needle.data.isPrefixOf t)

/-- Python str.lower, modelled characterwise. -/
def lowerStr (s : String) : String :=
  ⟨s.data.map Char.toLower⟩

/-- Python str.strip: whitespace removed from both ends. -/
def stripStr (s : String) : String :=
  ⟨((s.data.dropWhile Char.isWhitespace).reverse.dropWhile Char.isWhitespace).reverse⟩

/-- Left-to-right removal of every occurrence of a pattern, with fuel
bounding the number of scanning steps. -/
def removeSubAux (pat : List Char) : Nat → List Char → List Char
  | _, [] => []
  | 0, l => l
  | fuel + 1, c :: rest =>
    if pat ≠ [] ∧ pat.isPrefixOf (c :: rest) then
      removeSubAux pat fuel ((c :: rest).drop pat.length)
    else c :: removeSubAux pat fuel rest

/-- Python str.replace with an empty replacement string: every
occurrence of the pattern is removed, scanning left to right. -/
def removeSubStr (pat s : String) : String :=
  ⟨removeSubAux pat.data s.data.length s.data⟩

/-- One inline summary container of a listing (a .W4Efsd element,
maps_api.py lines 93-108): its full inner text, the stripped-off span
child texts, and the optional span.UsdlK child text. -/
structure Container where
  text : String
  spans : List String
  usdlk : Option String

/-- Environment of one result-card listing (.Nv2PK element):
the optional .qBF1Pd name text, whether clicking the listing and
opening its detail panel succeeds (maps_api.py line 55), and the
inline summary containers used by the fallback path. -/
structure Listing where
  nameEl : Option String
  clickOk : Bool
  containers : List Container

/-- Ordered address query strategies (maps_api.py lines 59-63). -/
def address_selectors : List String :=
  ["button[data-item-id=\"address\"]", "[data-item-id*=\"address\"]", ".rogA2c"]

/-- Ordered phone query strategies (maps_api.py lines 75-79). -/
def phone_selectors : List String :=
  ["button[data-item-id*=\"phone\"]", "[data-item-id*=\"phone\"]", ".rogA2c span.UsdlK"]

/-- Ordered fallback chain over selectors (maps_api.py lines 65-72 and
81-88): the loop breaks at the first selector for which
wait_for_selector returns a visible element, assigning that element's
stripped inner text; a selector whose wait raises is skipped.  The
query argument gives, per selector, none for a raise/timeout and
some t for a visible element with inner text t. -/
def firstHit (query : String → Option String) : List String → String
  | [] => ""
  | sel :: rest =>
    match query sel with
    | some t => stripStr t
    | none => firstHit query rest

/-- Fallback address pick over the span texts of a category container
(maps_api.py lines 98-103): the first stripped span text containing a
digit and not starting with an opening parenthesis wins, with the
mojibake separator removed and a final strip. -/
def pickSpanAddress : List String → Option String
  | [] => none
  | s :: rest =>
    let t := stripStr s
    if t.data.any Char.isDigit && !("(".data.isPrefixOf t.data) then
      some (stripStr (removeSubStr "Â·" t))
    else pickSpanAddress rest

/-- Fallback scan over the inline summary containers (maps_api.py
lines 93-108), threading the current address and phone: a
category-labelled container may supply the address, a container with
an hours marker may supply the phone (via its span.UsdlK child). -/
def fallbackScan : List Container → String → String → String × String
  | [], addr, ph => (addr, ph)
  | c :: rest, addr, ph =>
    let addr' :=
      if addr = "" ∧ (containsSub "Tobacco shop" c.text ∨
          containsSub "Smoke shop" c.text ∨ containsSub "Vaporizer store" c.text) then
        match pickSpanAddress c.spans with
        | some a => a
        | none => addr
      else addr
    let ph' :=
      if ph = "" ∧ (containsSub "Open" c.text ∨ containsSub "Closes" c.text) then
        match c.usdlk with
        | some p => stripStr p
        | none => ph
      else ph
    fallbackScan rest addr' ph'

/-- Address and phone resolution (maps_api.py lines 53-108): when the
click on the listing succeeds, both fields go through their ordered
selector chains against the detail panel; when it raises, the inline
summary fallback scan is used instead. -/
def resolveDetails (detail : String → Option String) (listing : Listing) : String × String :=
  if listing.clickOk then
    (firstHit detail address_selectors, firstHit detail phone_selectors)
  else fallbackScan listing.containers "" ""

/-- The record built by extract_business_info (maps_api.py 112-117). -/
structure BusinessInfo where
  name : String
  address : String
  phone : String
  website : String
deriving DecidableEq

/-- Final completeness gate of extract_business_info (maps_api.py
lines 110-120): a record is returned only when both the name and the
phone are non-empty; the website field is always the empty string. -/
def finishInfo (name : String) (ap : String × String) : Option BusinessInfo :=
  if name ≠ "" ∧ ap.2 ≠ "" then
    some { name := name, address := ap.1, phone := ap.2, website := "" }
  else none

/-- extract_business_info (maps_api.py lines 36-124): reads the
.qBF1Pd name (empty when absent), rejects names containing the
case-insensitive substring cigar, resolves address and phone, and
returns a record only when name and phone are both present. -/
def extract_business_info (detail : String → Option String) (listing : Listing) :
    Option BusinessInfo :=
  match listing.nameEl with
  | some n =>
    if containsSub "cigar" (lowerStr n) then none
    else finishInfo n (resolveDetails detail listing)
  | none => finishInfo "" (resolveDetails detail listing)

/-- Environment of one load_more_results call (maps_api.py 126-150):
the .Nv2PK count before the scroll (none when the count query raises),
whether the scroll script evaluation succeeds, and the count after the
settle wait (none when that query raises). -/
structure LoadMoreEnv where
  initialCount : Option Nat
  scrollOk : Bool
  newCount : Option Nat
deriving DecidableEq

/-- load_more_results (maps_api.py lines 126-150): count, scroll,
settle, recount; returns whether the count strictly grew; any raise is
caught and turned into false. -/
def load_more_results (env : LoadMoreEnv) : Bool :=
  match env.initialCount with
  | none => false
  | some a =>
    if env.scrollOk then
      match env.newCount with
      | some b => decide (a < b)
      | none => false
    else false

/-- An accepted result: the extracted record tagged with the search
term under which it was found (maps_api.py line 206). -/
structure LeadRecord where
  info : BusinessInfo
  search_term : String
deriving DecidableEq

/-- Mutable state of one scrape invocation (maps_api.py 157-159):
the ordered result list, the seen-address set and the seen-name set
(sets are modelled as lists with membership tests). -/
structure ScrapeState where
  results : List LeadRecord
  processed_addresses : List String
  existing_names : List String
deriving DecidableEq

/-- Environment of one listing extraction inside the scrape loop: the
listing element data together with the detail-panel query outcomes the
page exhibits once this listing is clicked. -/
structure ItemEnv where
  listing : Listing
  detail : String → Option String

/-- Environment of one pagination round: the load_more_results call
outcome and the full .Nv2PK collection the re-query returns when the
round reports growth (maps_api.py line 217). -/
structure LoadRound where
  lm : LoadMoreEnv
  items : List ItemEnv

/-- Environment of one term session: whether page.goto completes
without raising (maps_api.py line 186), the initial .Nv2PK result
cards, and the successive pagination rounds.  The round list being
finite models that the result count grows only finitely often; once
it is exhausted, the next load_more_results call reports no growth. -/
structure TermEnv where
  gotoOk : Bool
  initialItems : List ItemEnv
  rounds : List LoadRound

/-- Term environment for terms beyond the supplied list: navigation
succeeds and no result cards are present. -/
def defaultTermEnv : TermEnv :=
  { gotoOk := true, initialItems := [], rounds := [] }

/-- Environment of one whole scrape request: whether the browser
launch succeeds (maps_api.py line 163) and the per-term worlds in
term order. -/
structure ScrapeEnv where
  launchOk : Bool
  termEnvs : List TermEnv

/-- SearchRequest (maps_api.py lines 20-26).  num_leads is an Int so
that the non-positive edge case is representable. -/
structure SearchRequest where
  city : String
  state : String
  num_leads : Int
  search_terms : List String := ["smoke shop", "vape shop", "tobacco shop"]
  existing_names : Option (List String) := none
  existing_addresses : Option (List String) := none

/-- Instrumentation events of the scrape loop: a browsing context
opened for a term, an extract_business_info invocation (recording the
listing's name text), and a load_more_results invocation (recording
its boolean result). -/
inductive Event where
  | openTerm (term : String)
  | extractEv (nameText : Option String)
  | loadMoreEv (grew : Bool)
deriving DecidableEq, BEq

/-- Success payload of the endpoint (maps_api.py lines 250-258). -/
structure Response where
  city : String
  state : String
  total_leads : Nat
  results : List LeadRecord
deriving DecidableEq

/-- Outcome of one request: the success payload, the 404 raised when
no results were accumulated, or the 500 raised when the automation
layer throws (maps_api.py lines 242-248). -/
inductive ScrapeOutcome where
  | success (resp : Response)
  | notFound
  | scrapeFailure
deriving DecidableEq

/-- One extraction inside the scrape loop (maps_api.py lines 199 and
222). -/
def extractItem (it : ItemEnv) : Option BusinessInfo :=
  extract_business_info it.detail it.listing

/-- Acceptance step (maps_api.py lines 200-207 and 223-230): the
candidate is appended exactly when it exists, its address is truthy
(non-empty), its address is unseen and its name is unseen; both keys
are then recorded and the record is tagged with the term. -/
def acceptStep (term : String) (st : ScrapeState) (info? : Option BusinessInfo) :
    ScrapeState :=
  match info? with
  | none => st
  | some info =>
    if info.address ≠ "" ∧ info.address ∉ st.processed_addresses ∧
        info.name ∉ st.existing_names then
      { results := st.results ++ [{ info := info, search_term := term }],
        processed_addresses := info.address :: st.processed_addresses,
        existing_names := info.name :: st.existing_names }
    else st

/-- One extract pass over a list of result cards (maps_api.py lines
195-210 and 218-233): before each card the quota guard is checked;
otherwise the card is extracted and the acceptance step applied. -/
def processItems (N : Int) (term : String) : List ItemEnv → ScrapeState →
    ScrapeState × List Event
  | [], st => (st, [])
  | it :: rest, st =>
    if N ≤ (st.results.length : Int) then (st, [])
    else
      let p := processItems N term rest (acceptStep term st (extractItem it))
      (p.1, Event.extractEv it.listing.nameEl :: p.2)

/-- Pagination loop of one term session (maps_api.py lines 213-233):
while the quota is unmet, call load_more_results; on no growth stop;
on growth re-query the full card collection and run an extract pass
over it. -/
def processRounds (N : Int) (term : String) : List LoadRound → ScrapeState →
    ScrapeState × List Event
  | [], st =>
    if N ≤ (st.results.length : Int) then (st, [])
    else (st, [Event.loadMoreEv false])
  | r :: rest, st =>
    if N ≤ (st.results.length : Int) then (st, [])
    else if load_more_results r.lm then
      let p := processItems N term r.items st
      let q := processRounds N term rest p.1
      (q.1, Event.loadMoreEv true :: (p.2 ++ q.2))
    else (st, [Event.loadMoreEv false])

/-- Term loop of scrape_locations (maps_api.py lines 171-233): per
term, the quota guard, then context and page creation, navigation (a
raise aborts the whole request), the empty-result-list skip, the
initial extract pass and the pagination loop. -/
def scrapeTerms (N : Int) : List String → List TermEnv → ScrapeState →
    Except Unit (ScrapeState × List Event)
  | [], _, st => Except.ok (st, [])
  | term :: ts, envs, st =>
    if N ≤ (st.results.length : Int) then Except.ok (st, [])
    else
      let te := envs.headD defaultTermEnv
      if te.gotoOk then
        if te.initialItems.isEmpty then
          match scrapeTerms N ts envs.tail st with
          | Except.error e => Except.error e
          | Except.ok (st', tr) => Except.ok (st', Event.openTerm term :: tr)
        else
          let p := processItems N term te.initialItems st
          let q := processRounds N term te.rounds p.1
          match scrapeTerms N ts envs.tail q.1 with
          | Except.error e => Except.error e
          | Except.ok (st', tr) =>
              Except.ok (st', Event.openTerm term :: ((p.2 ++ q.2) ++ tr))
      else Except.error ()

/-- Initial scrape state (maps_api.py lines 157-159): empty results,
dedup sets seeded from the request's existing_addresses and
existing_names. -/
def initState (req : SearchRequest) : ScrapeState :=
  { results := []
    processed_addresses := req.existing_addresses.getD []
    existing_names := req.existing_names.getD [] }

/-- scrape_locations (maps_api.py lines 152-258), instrumented with
the event trace: a launch failure or any raise inside the term loop
yields the 500 outcome; an empty final result list yields the 404
outcome; otherwise the success payload is built from the final
state. -/
def scrape_locations (env : ScrapeEnv) (req : SearchRequest) :
    ScrapeOutcome × List Event :=
  if env.launchOk then
    match scrapeTerms req.num_leads req.search_terms env.termEnvs (initState req) with
    | Except.error _ => (ScrapeOutcome.scrapeFailure, [])
    | Except.ok (st, tr) =>
      if st.results = [] then (ScrapeOutcome.notFound, tr)
      else
        (ScrapeOutcome.success
          { city := req.city, state := req.state,
            total_leads := st.results.length, results := st.results }, tr)
  else (ScrapeOutcome.scrapeFailure, [])

/-! Concrete environments used by witnesses and counterexamples. -/

/-- Detail-panel outcomes once the first sample listing is clicked:
only the third address selector and the third phone selector find a
visible element. -/
def detailA : String → Option String := fun s =>
  if s = ".rogA2c" then some "1 St" else if s = ".rogA2c span.UsdlK" then some "5" else none

/-- Detail-panel outcomes once the second sample listing is clicked. -/
def detailB : String → Option String := fun s =>
  if s = ".rogA2c" then some "2 St" else if s = ".rogA2c span.UsdlK" then some "6" else none

/-- A first sample listing with a clean name. -/
def listingA : Listing := { nameEl := some "A Shop", clickOk := true, containers := [] }

/-- A second sample listing with a clean name. -/
def listingB : Listing := { nameEl := some "B Shop", clickOk := true, containers := [] }

/-- The first sample listing together with its detail outcomes. -/
def itemA : ItemEnv := { listing := listingA, detail := detailA }

/-- The second sample listing together with its detail outcomes. -/
def itemB : ItemEnv := { listing := listingB, detail := detailB }

/-- The record extract_business_info yields for the first listing. -/
def infoA : BusinessInfo := { name := "A Shop", address := "1 St", phone := "5", website := "" }

/-- A world with one term whose page holds the first listing only. -/
def envGood : ScrapeEnv :=
  { launchOk := true, termEnvs := [{ gotoOk := true, initialItems := [itemA], rounds := [] }] }

/-- A request for one lead under a single term. -/
def reqW : SearchRequest :=
  { city := "Austin", state := "TX", num_leads := 1, search_terms := ["vape"] }

/-- The success payload the model produces on envGood and reqW. -/
def respW : Response :=
  { city := "Austin", state := "TX", total_leads := 1,
    results := [{ info := infoA, search_term := "vape" }] }

/-- The event trace the model produces on envGood and reqW. -/
def trW : List Event := [Event.openTerm "vape", Event.extractEv (some "A Shop")]

/-! Helper lemmas about the acceptance step. -/

/-- A missing candidate leaves the state unchanged. -/
theorem acceptStep_none (term : String) (st : ScrapeState) :
    acceptStep term st none = st := rfl

/-- The acceptance step appends at most one record and never drops one. -/
theorem acceptStep_len_le (term : String) (st : ScrapeState) (i : Option BusinessInfo) :
    st.results.length ≤ (acceptStep term st i).results.length ∧
    (acceptStep term st i).results.length ≤ st.results.length + 1 := by
  cases i with
  | none => simp [acceptStep]
  | some info =>
    simp only [acceptStep]
    split <;> simp

/-- A record returned by extract_business_info has a non-empty name, a
non-empty phone, an empty website, and a cigar-free name. -/
theorem extract_good (detail : String → Option String) (listing : Listing)
    (info : BusinessInfo) (h : extract_business_info detail listing = some info) :
    info.name ≠ "" ∧ info.phone ≠ "" ∧ info.website = "" ∧
      containsSub "cigar" (lowerStr info.name) = false := by
  cases hn : listing.nameEl with
  | none =>
    simp only [extract_business_info, hn, finishInfo] at h
    split at h
    · rename_i hg
      exact absurd rfl hg.1
    · exact absurd h (by simp)
  | some n =>
    simp only [extract_business_info, hn] at h
    split at h
    · exact absurd h (by simp)
    · rename_i hc
      unfold finishInfo at h
      split at h
      · rename_i hg
        injection h with h'
        subst h'
        refine ⟨hg.1, hg.2, rfl, ?_⟩
        simpa using hc
      · exact absurd h (by simp)

/-! Unfolding and quota lemmas for the scrape loops. -/

/-- An extract pass started at or above quota does nothing. -/
theorem processItems_quota (N : Int) (term : String) (items : List ItemEnv)
    (st : ScrapeState) (h : N ≤ (st.results.length : Int)) :
    processItems N term items st = (st, []) := by
  cases items with
  | nil => simp [processItems]
  | cons it rest => simp [processItems, h]

/-- One step of the extract pass below quota. -/
theorem processItems_cons (N : Int) (term : String) (it : ItemEnv) (rest : List ItemEnv)
    (st : ScrapeState) (h : ¬ N ≤ (st.results.length : Int)) :
    processItems N term (it :: rest) st =
      ((processItems N term rest (acceptStep term st (extractItem it))).1,
       Event.extractEv it.listing.nameEl ::
         (processItems N term rest (acceptStep term st (extractItem it))).2) := by
  simp [processItems, h]

/-- A pagination loop started at or above quota does nothing. -/
theorem processRounds_quota (N : Int) (term : String) (rounds : List LoadRound)
    (st : ScrapeState) (h : N ≤ (st.results.length : Int)) :
    processRounds N term rounds st = (st, []) := by
  cases rounds with
  | nil => simp [processRounds, h]
  | cons r rest => simp [processRounds, h]

/-- Below quota, an exhausted round list means one final load call
reporting no growth. -/
theorem processRounds_nil (N : Int) (term : String) (st : ScrapeState)
    (h : ¬ N ≤ (st.results.length : Int)) :
    processRounds N term [] st = (st, [Event.loadMoreEv false]) := by
  simp [processRounds, h]

/-- Below quota, a growth round runs an extract pass over the
re-queried collection and loops. -/
theorem processRounds_cons_grow (N : Int) (term : String) (r : LoadRound)
    (rest : List LoadRound) (st : ScrapeState)
    (h : ¬ N ≤ (st.results.length : Int)) (hg : load_more_results r.lm = true) :
    processRounds N term (r :: rest) st =
      ((processRounds N term rest (processItems N term r.items st).1).1,
       Event.loadMoreEv true ::
         ((processItems N term r.items st).2 ++
          (processRounds N term rest (processItems N term r.items st).1).2)) := by
  simp [processRounds, h, hg]

/-- Below quota, a stalled round ends the pagination loop. -/
theorem processRounds_cons_stop (N : Int) (term : String) (r : LoadRound)
    (rest : List LoadRound) (st : ScrapeState)
    (h : ¬ N ≤ (st.results.length : Int)) (hg : load_more_results r.lm = false) :
    processRounds N term (r :: rest) st = (st, [Event.loadMoreEv false]) := by
  simp [processRounds, h, hg]

/-- A term loop started at or above quota opens nothing. -/
theorem scrapeTerms_quota (N : Int) (terms : List String) (envs : List TermEnv)
    (st : ScrapeState) (h : N ≤ (st.results.length : Int)) :
    scrapeTerms N terms envs st = Except.ok (st, []) := by
  cases terms with
  | nil => simp [scrapeTerms]
  | cons t ts => simp [scrapeTerms, h]

/-- Below quota, a navigation raise aborts the whole term loop. -/
theorem scrapeTerms_cons_goto_fail (N : Int) (term : String) (ts : List String)
    (envs : List TermEnv) (st : ScrapeState)
    (hq : ¬ N ≤ (st.results.length : Int))
    (hg : (envs.headD defaultTermEnv).gotoOk = false) :
    scrapeTerms N (term :: ts) envs st = Except.error () := by
  simp only [List.headD_eq_head?_getD] at hg
  simp [scrapeTerms, hq, hg]

/-- Below quota, a term with an empty initial result list is skipped:
the state is untouched and the loop proceeds to the remaining terms. -/
theorem scrapeTerms_cons_empty (N : Int) (term : String) (ts : List String)
    (envs : List TermEnv) (st : ScrapeState)
    (hq : ¬ N ≤ (st.results.length : Int))
    (hg : (envs.headD defaultTermEnv).gotoOk = true)
    (he : (envs.headD defaultTermEnv).initialItems.isEmpty = true) :
    scrapeTerms N (term :: ts) envs st =
      Except.map (fun p => (p.1, Event.openTerm term :: p.2))
        (scrapeTerms N ts envs.tail st) := by
  simp only [List.headD_eq_head?_getD] at hg he
  cases hrec : scrapeTerms N ts envs.tail st with
  | error e => simp [scrapeTerms, hq, hg, he, hrec, Except.map]
  | ok p =>
    cases p
    simp [scrapeTerms, hq, hg, he, hrec, Except.map]

/-- Below quota, a term with result cards runs its initial extract
pass and its pagination loop, then proceeds to the remaining terms. -/
theorem scrapeTerms_cons_items (N : Int) (term : String) (ts : List String)
    (envs : List TermEnv) (st : ScrapeState)
    (hq : ¬ N ≤ (st.results.length : Int))
    (hg : (envs.headD defaultTermEnv).gotoOk = true)
    (he : (envs.headD defaultTermEnv).initialItems.isEmpty = false) :
    scrapeTerms N (term :: ts) envs st =
      Except.map (fun p => (p.1, Event.openTerm term ::
          (((processItems N term (envs.headD defaultTermEnv).initialItems st).2 ++
            (processRounds N term (envs.headD defaultTermEnv).rounds
              (processItems N term (envs.headD defaultTermEnv).initialItems st).1).2) ++ p.2)))
        (scrapeTerms N ts envs.tail
          (processRounds N term (envs.headD defaultTermEnv).rounds
            (processItems N term (envs.headD defaultTermEnv).initialItems st).1).1) := by
  simp only [List.headD_eq_head?_getD] at hg he ⊢
  cases hrec : scrapeTerms N ts envs.tail
      (processRounds N term (envs.head?.getD defaultTermEnv).rounds
        (processItems N term (envs.head?.getD defaultTermEnv).initialItems st).1).1 with
  | error e => simp [scrapeTerms, hq, hg, he, hrec, Except.map]
  | ok p =>
    cases p
    simp [scrapeTerms, hq, hg, he, hrec, Except.map]

/-! Quota bound lemmas. -/

/-- The extract pass never pushes the result count above the quota it
was below, nor above its starting point when already at quota. -/
theorem processItems_len (N : Int) (term : String) (items : List ItemEnv)
    (st : ScrapeState) (h : (st.results.length : Int) ≤ N) :
    ((processItems N term items st).1.results.length : Int) ≤ N := by
  induction items generalizing st with
  | nil => simpa [processItems] using h
  | cons it rest ih =>
    by_cases hq : N ≤ (st.results.length : Int)
    · rw [processItems_quota N term _ st hq]
      exact h
    · rw [processItems_cons N term it rest st hq]
      refine ih (acceptStep term st (extractItem it)) ?_
      have h2 := (acceptStep_len_le term st (extractItem it)).2
      omega

/-- The pagination loop preserves the quota bound. -/
theorem processRounds_len (N : Int) (term : String) (rounds : List LoadRound)
    (st : ScrapeState) (h : (st.results.length : Int) ≤ N) :
    ((processRounds N term rounds st).1.results.length : Int) ≤ N := by
  induction rounds generalizing st with
  | nil =>
    by_cases hq : N ≤ (st.results.length : Int)
    · rw [processRounds_quota N term [] st hq]; exact h
    · rw [processRounds_nil N term st hq]; exact h
  | cons r rest ih =>
    by_cases hq : N ≤ (st.results.length : Int)
    · rw [processRounds_quota N term _ st hq]; exact h
    · by_cases hg : load_more_results r.lm
      · rw [processRounds_cons_grow N term r rest st hq hg]
        exact ih _ (processItems_len N term r.items st h)
      · rw [processRounds_cons_stop N term r rest st hq (by simpa using hg)]
        exact h

/-- The term loop preserves the quota bound. -/
theorem scrapeTerms_len (N : Int) (terms : List String) (envs : List TermEnv)
    (st st' : ScrapeState) (tr : List Event)
    (h : (st.results.length : Int) ≤ N)
    (hrun : scrapeTerms N terms envs st = Except.ok (st', tr)) :
    (st'.results.length : Int) ≤ N := by
  induction terms generalizing envs st st' tr with
  | nil =>
    simp only [scrapeTerms, Except.ok.injEq, Prod.mk.injEq] at hrun
    obtain ⟨h1, -⟩ := hrun
    exact h1 ▸ h
  | cons t ts ih =>
    by_cases hq : N ≤ (st.results.length : Int)
    · rw [scrapeTerms_quota N _ envs st hq] at hrun
      simp only [Except.ok.injEq, Prod.mk.injEq] at hrun
      obtain ⟨h1, -⟩ := hrun
      exact h1 ▸ h
    · by_cases hg : (envs.headD defaultTermEnv).gotoOk
      · by_cases he : (envs.headD defaultTermEnv).initialItems.isEmpty
        · rw [scrapeTerms_cons_empty N t ts envs st hq hg he] at hrun
          cases hrec : scrapeTerms N ts envs.tail st with
          | error e => rw [hrec] at hrun; exact absurd hrun (by simp [Except.map])
          | ok p =>
            rw [hrec] at hrun
            simp only [Except.map, Except.ok.injEq, Prod.mk.injEq] at hrun
            obtain ⟨h1, -⟩ := hrun
            exact h1 ▸ ih envs.tail st p.1 p.2 h hrec
        · rw [scrapeTerms_cons_items N t ts envs st hq hg (by simpa using he)] at hrun
          set st1 := (processRounds N t (envs.headD defaultTermEnv).rounds
            (processItems N t (envs.headD defaultTermEnv).initialItems st).1).1 with hst1
          have hlen1 : (st1.results.length : Int) ≤ N :=
            processRounds_len N t _ _ (processItems_len N t _ st h)
          cases hrec : scrapeTerms N ts envs.tail st1 with
          | error e => rw [hrec] at hrun; exact absurd hrun (by simp [Except.map])
          | ok p =>
            rw [hrec] at hrun
            simp only [Except.map, Except.ok.injEq, Prod.mk.injEq] at hrun
            obtain ⟨h1, -⟩ := hrun
            exact h1 ▸ ih envs.tail st1 p.1 p.2 hlen1 hrec
      · rw [scrapeTerms_cons_goto_fail N t ts envs st hq (by simpa using hg)] at hrun
        exact absurd hrun (by simp)

/-! Completeness invariant of accepted records. -/

/-- Field properties every accepted record satisfies: non-empty name,
phone and address, empty website, cigar-free name. -/
def GoodRec (r : LeadRecord) : Prop :=
  r.info.name ≠ "" ∧ r.info.phone ≠ "" ∧ r.info.address ≠ "" ∧
    r.info.website = "" ∧ containsSub "cigar" (lowerStr r.info.name) = false

/-- The acceptance step applied to an extraction result preserves the
completeness invariant. -/
theorem acceptStep_good (term : String) (st : ScrapeState) (it : ItemEnv)
    (h : ∀ r ∈ st.results, GoodRec r) :
    ∀ r ∈ (acceptStep term st (extractItem it)).results, GoodRec r := by
  cases hx : extractItem it with
  | none => simpa [acceptStep] using h
  | some info =>
    have hg := extract_good it.detail it.listing info (by simpa [extractItem] using hx)
    simp only [acceptStep]
    split
    · rename_i hc
      intro r hr
      simp only [List.mem_append, List.mem_singleton] at hr
      cases hr with
      | inl hr => exact h r hr
      | inr hr =>
        subst hr
        exact ⟨hg.1, hg.2.1, hc.1, hg.2.2.1, hg.2.2.2⟩
    · exact h

/-- The extract pass preserves the completeness invariant. -/
theorem processItems_good (N : Int) (term : String) (items : List ItemEnv)
    (st : ScrapeState) (h : ∀ r ∈ st.results, GoodRec r) :
    ∀ r ∈ (processItems N term items st).1.results, GoodRec r := by
  induction items generalizing st with
  | nil => simpa [processItems] using h
  | cons it rest ih =>
    by_cases hq : N ≤ (st.results.length : Int)
    · rw [processItems_quota N term _ st hq]; exact h
    · rw [processItems_cons N term it rest st hq]
      exact ih _ (acceptStep_good term st it h)

/-- The pagination loop preserves the completeness invariant. -/
theorem processRounds_good (N : Int) (term : String) (rounds : List LoadRound)
    (st : ScrapeState) (h : ∀ r ∈ st.results, GoodRec r) :
    ∀ r ∈ (processRounds N term rounds st).1.results, GoodRec r := by
  induction rounds generalizing st with
  | nil =>
    by_cases hq : N ≤ (st.results.length : Int)
    · rw [processRounds_quota N term [] st hq]; exact h
    · rw [processRounds_nil N term st hq]; exact h
  | cons r rest ih =>
    by_cases hq : N ≤ (st.results.length : Int)
    · rw [processRounds_quota N term _ st hq]; exact h
    · by_cases hg : load_more_results r.lm
      · rw [processRounds_cons_grow N term r rest st hq hg]
        exact ih _ (processItems_good N term r.items st h)
      · rw [processRounds_cons_stop N term r rest st hq (by simpa using hg)]
        exact h

/-- The term loop preserves the completeness invariant. -/
theorem scrapeTerms_good (N : Int) (terms : List String) (envs : List TermEnv)
    (st st' : ScrapeState) (tr : List Event)
    (h : ∀ r ∈ st.results, GoodRec r)
    (hrun : scrapeTerms N terms envs st = Except.ok (st', tr)) :
    ∀ r ∈ st'.results, GoodRec r := by
  induction terms generalizing envs st st' tr with
  | nil =>
    simp only [scrapeTerms, Except.ok.injEq, Prod.mk.injEq] at hrun
    obtain ⟨h1, -⟩ := hrun
    exact h1 ▸ h
  | cons t ts ih =>
    by_cases hq : N ≤ (st.results.length : Int)
    · rw [scrapeTerms_quota N _ envs st hq] at hrun
      simp only [Except.ok.injEq, Prod.mk.injEq] at hrun
      obtain ⟨h1, -⟩ := hrun
      exact h1 ▸ h
    · by_cases hg : (envs.headD defaultTermEnv).gotoOk
      · by_cases he : (envs.headD defaultTermEnv).initialItems.isEmpty
        · rw [scrapeTerms_cons_empty N t ts envs st hq hg he] at hrun
          cases hrec : scrapeTerms N ts envs.tail st with
          | error e => rw [hrec] at hrun; exact absurd hrun (by simp [Except.map])
          | ok p =>
            rw [hrec] at hrun
            simp only [Except.map, Except.ok.injEq, Prod.mk.injEq] at hrun
            obtain ⟨h1, -⟩ := hrun
            exact h1 ▸ ih envs.tail st p.1 p.2 h hrec
        · rw [scrapeTerms_cons_items N t ts envs st hq hg (by simpa using he)] at hrun
          set st1 := (processRounds N t (envs.headD defaultTermEnv).rounds
            (processItems N t (envs.headD defaultTermEnv).initialItems st).1).1 with hst1
          have hgood1 : ∀ r ∈ st1.results, GoodRec r :=
            processRounds_good N t _ _ (processItems_good N t _ st h)
          cases hrec : scrapeTerms N ts envs.tail st1 with
          | error e => rw [hrec] at hrun; exact absurd hrun (by simp [Except.map])
          | ok p =>
            rw [hrec] at hrun
            simp only [Except.map, Except.ok.injEq, Prod.mk.injEq] at hrun
            obtain ⟨h1, -⟩ := hrun
            exact h1 ▸ ih envs.tail st1 p.1 p.2 hgood1 hrec
      · rw [scrapeTerms_cons_goto_fail N t ts envs st hq (by simpa using hg)] at hrun
        exact absurd hrun (by simp)

/-- Characterization of the endpoint outcome when the engine launches
and the term loop completes without raising. -/
theorem scrape_locations_ok_cases (env : ScrapeEnv) (req : SearchRequest)
    (hl : env.launchOk = true) (st : ScrapeState) (tr : List Event)
    (hrun : scrapeTerms req.num_leads req.search_terms env.termEnvs (initState req) =
      Except.ok (st, tr)) :
    scrape_locations env req =
      if st.results = [] then (ScrapeOutcome.notFound, tr)
      else
        (ScrapeOutcome.success
          { city := req.city, state := req.state,
            total_leads := st.results.length, results := st.results }, tr) := by
  simp [scrape_locations, hl, hrun]

/-- Characterization of the endpoint outcome when the term loop
raises. -/
theorem scrape_locations_error (env : ScrapeEnv) (req : SearchRequest)
    (hl : env.launchOk = true)
    (hrun : scrapeTerms req.num_leads req.search_terms env.termEnvs (initState req) =
      Except.error ()) :
    scrape_locations env req = (ScrapeOutcome.scrapeFailure, []) := by
  simp [scrape_locations, hl, hrun]

/-- Every record in a success payload satisfies the completeness
invariant. -/
theorem run_success_good (env : ScrapeEnv) (req : SearchRequest)
    (resp : Response) (tr : List Event)
    (h : scrape_locations env req = (ScrapeOutcome.success resp, tr)) :
    ∀ r ∈ resp.results, GoodRec r := by
  by_cases hl : env.launchOk
  · cases hrun : scrapeTerms req.num_leads req.search_terms env.termEnvs (initState req) with
    | error e =>
      cases e
      rw [scrape_locations_error env req hl hrun] at h
      exact absurd h (by simp)
    | ok p =>
      obtain ⟨st, tr'⟩ := p
      rw [scrape_locations_ok_cases env req hl st tr' hrun] at h
      split at h
      · exact absurd h (by simp)
      · have hst : ∀ r ∈ st.results, GoodRec r := by
          refine scrapeTerms_good req.num_leads req.search_terms env.termEnvs
            (initState req) st tr' ?_ hrun
          intro r hr
          simp [initState] at hr
        injection h with h1 h2
        injection h1 with h3
        rw [← h3]
        exact hst
  · simp only [Bool.not_eq_true] at hl
    simp [scrape_locations, hl] at h

/-! Claim theorems. -/

/-- C7: load_more_results returns true if and only if the count of
result-card elements after the scroll trigger and settle wait strictly
exceeds the count recorded before it, and returns false (the function
is total, never raising) whenever any step of the scroll or count
process fails. -/
theorem load_more_iff_growth (env : LoadMoreEnv) :
    load_more_results env = true ↔
      ∃ a b, env.initialCount = some a ∧ env.scrollOk = true ∧
        env.newCount = some b ∧ a < b := by
  cases hi : env.initialCount with
  | none => simp [load_more_results, hi]
  | some a =>
    cases hs : env.scrollOk with
    | false => simp [load_more_results, hi, hs]
    | true =>
      cases hn : env.newCount with
      | none => simp [load_more_results, hi, hs, hn]
      | some b => simp [load_more_results, hi, hs, hn]

/-- A candidate with a fresh name but an empty address field. -/
def infoEmptyAddr : BusinessInfo :=
  { name := "Fresh Vape", address := "", phone := "5", website := "" }

/-- A state whose seen sets do not mention the fresh candidate. -/
def stC1 : ScrapeState :=
  { results := [], processed_addresses := [], existing_names := ["Old Shop"] }

/-- C1 counterexample: a candidate with a fresh name and an empty
address is rejected by the code (the state is unchanged and nothing is
appended), while the claim says it is accepted. -/
theorem accept_empty_address_counterexample :
    infoEmptyAddr.address = "" ∧ infoEmptyAddr.name ∉ stC1.existing_names ∧
    acceptStep "vape" stC1 (some infoEmptyAddr) = stC1 ∧ stC1.results = [] := by
  exact ⟨rfl, by decide, by decide, rfl⟩

/-- C1 (amended): a candidate is appended if and only if its address
is non-empty AND unseen AND its name is unseen; a candidate whose
address is empty, or whose address or name was already seen, leaves
the state unchanged (so the result count never grows); on acceptance
both keys are recorded and the record is appended tagged with the
term. -/
theorem accept_dedup_amended (term : String) (st : ScrapeState) (info : BusinessInfo) :
    ((acceptStep term st (some info)).results.length = st.results.length + 1 ↔
      (info.address ≠ "" ∧ info.address ∉ st.processed_addresses ∧
        info.name ∉ st.existing_names)) ∧
    ((info.address = "" ∨ info.address ∈ st.processed_addresses ∨
        info.name ∈ st.existing_names) →
      acceptStep term st (some info) = st) ∧
    ((info.address ≠ "" ∧ info.address ∉ st.processed_addresses ∧
        info.name ∉ st.existing_names) →
      acceptStep term st (some info) =
        { results := st.results ++ [{ info := info, search_term := term }],
          processed_addresses := info.address :: st.processed_addresses,
          existing_names := info.name :: st.existing_names }) := by
  by_cases hc : info.address ≠ "" ∧ info.address ∉ st.processed_addresses ∧
      info.name ∉ st.existing_names
  · simp only [acceptStep, if_pos hc]
    refine ⟨iff_of_true (by simp) hc, ?_, fun _ => trivial⟩
    intro hbad
    rcases hbad with h1 | h2 | h3
    · exact absurd h1 hc.1
    · exact absurd h2 hc.2.1
    · exact absurd h3 hc.2.2
  · simp only [acceptStep, if_neg hc]
    exact ⟨iff_of_false (by omega) hc, fun _ => trivial, fun h => absurd h hc⟩

/-- Witness for accept_dedup_amended: a fresh candidate with all three
fields non-empty is appended and both keys recorded. -/
theorem accept_dedup_amended_witness :
    acceptStep "vape" { results := [], processed_addresses := [], existing_names := [] }
        (some infoA) =
      { results := [{ info := infoA, search_term := "vape" }],
        processed_addresses := ["1 St"], existing_names := ["A Shop"] } :=
  (accept_dedup_amended "vape"
    { results := [], processed_addresses := [], existing_names := [] } infoA).2.2 (by decide)

/-- C2: for every request, a returned success payload holds at most
num_leads records; and from any state at or above quota, the term
loop opens no further term session, the extract pass extracts no
further listing, and the pagination loop attempts no further load. -/
theorem quota_bound (env : ScrapeEnv) (req : SearchRequest) :
    (∀ resp tr, scrape_locations env req = (ScrapeOutcome.success resp, tr) →
        (resp.results.length : Int) ≤ req.num_leads) ∧
    (∀ (N : Int) (term : String) (st : ScrapeState),
        N ≤ (st.results.length : Int) →
        ∀ (terms : List String) (envs : List TermEnv) (items : List ItemEnv)
          (rounds : List LoadRound),
          scrapeTerms N terms envs st = Except.ok (st, []) ∧
          processItems N term items st = (st, []) ∧
          processRounds N term rounds st = (st, [])) := by
  constructor
  · intro resp tr h
    by_cases hl : env.launchOk
    · cases hrun : scrapeTerms req.num_leads req.search_terms env.termEnvs (initState req) with
      | error e =>
        cases e
        rw [scrape_locations_error env req hl hrun] at h
        exact absurd h (by simp)
      | ok p =>
        obtain ⟨st, tr'⟩ := p
        rw [scrape_locations_ok_cases env req hl st tr' hrun] at h
        split at h
        · exact absurd h (by simp)
        · rename_i hne
          injection h with h1 h2
          injection h1 with h3
          rw [← h3]
          by_cases h0 : (0 : Int) ≤ req.num_leads
          · exact scrapeTerms_len req.num_leads req.search_terms env.termEnvs
              (initState req) st tr' (by simp [initState]; omega) hrun
          · push_neg at h0
            have hq := scrapeTerms_quota req.num_leads req.search_terms env.termEnvs
              (initState req) (by simp [initState]; omega)
            rw [hq] at hrun
            simp only [Except.ok.injEq, Prod.mk.injEq] at hrun
            obtain ⟨h4, -⟩ := hrun
            rw [← h4] at hne
            simp [initState] at hne
    · simp only [Bool.not_eq_true] at hl
      simp [scrape_locations, hl] at h
  · intro N term st hq terms envs items rounds
    exact ⟨scrapeTerms_quota N terms envs st hq, processItems_quota N term items st hq,
      processRounds_quota N term rounds st hq⟩

/-- A state already holding one accepted record, at quota one. -/
def stQ : ScrapeState :=
  { results := [{ info := infoA, search_term := "t" }],
    processed_addresses := ["1 St"], existing_names := ["A Shop"] }

/-- Witness for quota_bound: a concrete one-lead run is bounded by its
quota, and from a state at quota the three loops are inert. -/
theorem quota_bound_witness :
    ((respW.results.length : Int) ≤ reqW.num_leads) ∧
    scrapeTerms 1 ["b"] [] stQ = Except.ok (stQ, []) ∧
    processItems 1 "b" [itemB] stQ = (stQ, []) ∧
    processRounds 1 "b" [] stQ = (stQ, []) :=
  ⟨(quota_bound envGood reqW).1 respW trW (by decide),
   (quota_bound envGood reqW).2 1 "b" stQ (by decide) ["b"] [] [itemB] []⟩

/-- C3: a listing whose name contains the substring cigar in any
letter case is rejected by the extractor, and consequently no record
in a success payload has a name containing cigar case-insensitively. -/
theorem blocklist_filter :
    (∀ (detail : String → Option String) (listing : Listing) (n : String),
        listing.nameEl = some n → containsSub "cigar" (lowerStr n) = true →
        extract_business_info detail listing = none) ∧
    (∀ (env : ScrapeEnv) (req : SearchRequest) (resp : Response) (tr : List Event),
        scrape_locations env req = (ScrapeOutcome.success resp, tr) →
        ∀ r ∈ resp.results, containsSub "cigar" (lowerStr r.info.name) = false) := by
  constructor
  · intro detail listing n hn hc
    simp [extract_business_info, hn, hc]
  · intro env req resp tr h r hr
    exact (run_success_good env req resp tr h r hr).2.2.2.2

/-- A listing whose name holds the blocklisted substring. -/
def cigarListing : Listing :=
  { nameEl := some "Big Cigar Lounge", clickOk := true, containers := [] }

/-- Witness for blocklist_filter at a concrete blocklisted listing and
a concrete successful run. -/
theorem blocklist_filter_witness :
    extract_business_info detailA cigarListing = none ∧
    containsSub "cigar" (lowerStr infoA.name) = false :=
  ⟨blocklist_filter.1 detailA cigarListing "Big Cigar Lounge" rfl (by decide),
   blocklist_filter.2 envGood reqW respW trW (by decide)
     { info := infoA, search_term := "vape" } (by decide)⟩

/-- C9: every record in a success payload has a non-empty name, a
non-empty phone and a non-empty address, and its website field is the
empty string. -/
theorem accepted_record_completeness (env : ScrapeEnv) (req : SearchRequest)
    (resp : Response) (tr : List Event)
    (h : scrape_locations env req = (ScrapeOutcome.success resp, tr)) :
    ∀ r ∈ resp.results,
      r.info.name ≠ "" ∧ r.info.phone ≠ "" ∧ r.info.address ≠ "" ∧
        r.info.website = "" := by
  intro r hr
  obtain ⟨h1, h2, h3, h4, -⟩ := run_success_good env req resp tr h r hr
  exact ⟨h1, h2, h3, h4⟩

/-- Witness for accepted_record_completeness at the concrete one-lead
run. -/
theorem accepted_record_completeness_witness :
    infoA.name ≠ "" ∧ infoA.phone ≠ "" ∧ infoA.address ≠ "" ∧ infoA.website = "" :=
  accepted_record_completeness envGood reqW respW trW (by decide)
    { info := infoA, search_term := "vape" } (by decide)

/-- Leading strategies whose waits raise are skipped; the first
strategy that yields a visible element resolves the field. -/
theorem firstHit_skip (q : String → Option String) (pre : List String)
    (sel : String) (post : List String) (t : String)
    (hpre : ∀ s ∈ pre, q s = none) (hsel : q sel = some t) :
    firstHit q (pre ++ sel :: post) = stripStr t := by
  induction pre with
  | nil => simp [firstHit, hsel]
  | cons a as ih =>
    have ha : q a = none := hpre a (by simp)
    simp only [List.cons_append, firstHit, ha]
    exact ih (fun s hs => hpre s (by simp [hs]))

/-- Query outcomes where the first address strategy finds a visible
element whose text is empty and the second would find a street
address. -/
def q4 : String → Option String := fun s =>
  if s = "button[data-item-id=\"address\"]" then some ""
  else if s = "[data-item-id*=\"address\"]" then some "123 Main St" else none

/-- C4 counterexample: the first address strategy yields a visible
element with empty text — so it fails to yield visible non-empty text
— and the second strategy would yield a street address; the claim
then demands the resolved address be that street address, yet the
chain resolves to the empty string, because the code breaks at the
first visible element regardless of its text. -/
theorem fallback_chain_counterexample :
    q4 "button[data-item-id=\"address\"]" = some "" ∧
    q4 "[data-item-id*=\"address\"]" = some "123 Main St" ∧
    firstHit q4 address_selectors = "" ∧
    stripStr "123 Main St" = "123 Main St" := by
  exact ⟨by decide, by decide, by decide, by decide⟩

/-- C4 (amended): if each of the first N-1 strategies yields no
visible element (its wait raises or times out) and the Nth yields a
visible element with text t, the resolved field equals the stripped t
— possibly empty — and no strategy after the Nth is attempted: the
result is unchanged under any alteration of the query outcomes of the
later strategies. -/
theorem fallback_chain_amended (pre post : List String) (sel t : String)
    (q q' : String → Option String)
    (hpre : ∀ s ∈ pre, q s = none) (hsel : q sel = some t)
    (hpre' : ∀ s ∈ pre, q' s = none) (hsel' : q' sel = some t) :
    firstHit q (pre ++ sel :: post) = stripStr t ∧
    firstHit q' (pre ++ sel :: post) = firstHit q (pre ++ sel :: post) := by
  have h1 := firstHit_skip q pre sel post t hpre hsel
  have h2 := firstHit_skip q' pre sel post t hpre' hsel'
  exact ⟨h1, by rw [h1, h2]⟩

/-- Query outcomes where only the second address strategy succeeds. -/
def qW : String → Option String := fun s =>
  if s = "[data-item-id*=\"address\"]" then some " 9 Elm " else none

/-- Like qW but with a different outcome for the third strategy,
which must not affect the resolved field. -/
def qW' : String → Option String := fun s =>
  if s = "[data-item-id*=\"address\"]" then some " 9 Elm "
  else if s = ".rogA2c" then some "unreached" else none

/-- Witness for fallback_chain_amended on the concrete address
selector chain. -/
theorem fallback_chain_amended_witness :
    firstHit qW (["button[data-item-id=\"address\"]"] ++
      "[data-item-id*=\"address\"]" :: [".rogA2c"]) = stripStr " 9 Elm " ∧
    firstHit qW' (["button[data-item-id=\"address\"]"] ++
      "[data-item-id*=\"address\"]" :: [".rogA2c"]) =
    firstHit qW (["button[data-item-id=\"address\"]"] ++
      "[data-item-id*=\"address\"]" :: [".rogA2c"]) :=
  fallback_chain_amended ["button[data-item-id=\"address\"]"] [".rogA2c"]
    "[data-item-id*=\"address\"]" " 9 Elm " qW qW'
    (by decide) (by decide) (by decide) (by decide)

/-- A world whose first term times out on navigation and whose second
term would yield one accepted record. -/
def envC5 : ScrapeEnv :=
  { launchOk := true,
    termEnvs := [{ gotoOk := false, initialItems := [], rounds := [] },
                 { gotoOk := true, initialItems := [itemA], rounds := [] }] }

/-- A two-term request matching envC5. -/
def reqC5 : SearchRequest :=
  { city := "Austin", state := "TX", num_leads := 1, search_terms := ["a", "b"] }

/-- The same world restricted to the second term only. -/
def envC5b : ScrapeEnv :=
  { launchOk := true, termEnvs := [{ gotoOk := true, initialItems := [itemA], rounds := [] }] }

/-- A one-term request matching envC5b. -/
def reqC5b : SearchRequest :=
  { city := "Austin", state := "TX", num_leads := 1, search_terms := ["b"] }

/-- C5 counterexample: when the first term's navigation raises a
timeout, the whole request fails with the 500 outcome instead of
proceeding to the next term — although running the second term alone
succeeds with one record. -/
theorem term_timeout_counterexample :
    scrape_locations envC5 reqC5 = (ScrapeOutcome.scrapeFailure, []) ∧
    scrape_locations envC5b reqC5b =
      (ScrapeOutcome.success
        { city := "Austin", state := "TX", total_leads := 1,
          results := [{ info := infoA, search_term := "b" }] },
       [Event.openTerm "b", Event.extractEv (some "A Shop")]) := by
  exact ⟨by decide, by decide⟩

/-- C5 (amended): a term whose navigation succeeds but whose initial
result list is empty is abandoned with the state untouched and the
loop proceeds to the remaining terms; but a timeout raised while
loading a term's page aborts the entire request with the
ScrapeFailure (HTTP 500) outcome. -/
theorem term_skip_amended :
    (∀ (N : Int) (t : String) (ts : List String) (te : TermEnv) (envs : List TermEnv)
        (st : ScrapeState),
        (st.results.length : Int) < N → te.gotoOk = true → te.initialItems = [] →
        scrapeTerms N (t :: ts) (te :: envs) st =
          Except.map (fun p => (p.1, Event.openTerm t :: p.2))
            (scrapeTerms N ts envs st)) ∧
    (∀ (env : ScrapeEnv) (req : SearchRequest) (t : String) (ts : List String),
        env.launchOk = true → req.search_terms = t :: ts →
        (env.termEnvs.headD defaultTermEnv).gotoOk = false →
        (0 : Int) < req.num_leads →
        scrape_locations env req = (ScrapeOutcome.scrapeFailure, [])) := by
  constructor
  · intro N t ts te envs st hlt hg he
    have hq : ¬ N ≤ (st.results.length : Int) := by omega
    have h1 : ((te :: envs).headD defaultTermEnv).gotoOk = true := by simpa using hg
    have h2 : ((te :: envs).headD defaultTermEnv).initialItems.isEmpty = true := by
      simp [he]
    have h3 := scrapeTerms_cons_empty N t ts (te :: envs) st hq h1 h2
    simpa using h3
  · intro env req t ts hl hterms hg hN
    have hq : ¬ req.num_leads ≤ ((initState req).results.length : Int) := by
      simp [initState]
      omega
    have herr : scrapeTerms req.num_leads req.search_terms env.termEnvs (initState req) =
        Except.error () := by
      rw [hterms]
      exact scrapeTerms_cons_goto_fail req.num_leads t ts env.termEnvs (initState req) hq hg
    exact scrape_locations_error env req hl herr

/-- A term environment with a working page and no result cards. -/
def emptyTermEnv : TermEnv := { gotoOk := true, initialItems := [], rounds := [] }

/-- An empty scrape state. -/
def st0 : ScrapeState := { results := [], processed_addresses := [], existing_names := [] }

/-- Witness for term_skip_amended: an empty-result term is skipped in
a concrete two-term loop, and a concrete navigation timeout yields the
500 outcome. -/
theorem term_skip_amended_witness :
    scrapeTerms 1 ["x", "b"]
        [emptyTermEnv, { gotoOk := true, initialItems := [itemA], rounds := [] }] st0 =
      Except.map (fun p => (p.1, Event.openTerm "x" :: p.2))
        (scrapeTerms 1 ["b"] [{ gotoOk := true, initialItems := [itemA], rounds := [] }] st0) ∧
    scrape_locations envC5 reqC5 = (ScrapeOutcome.scrapeFailure, []) :=
  ⟨term_skip_amended.1 1 "x" ["b"] emptyTermEnv
      [{ gotoOk := true, initialItems := [itemA], rounds := [] }] st0 (by decide) rfl rfl,
   term_skip_amended.2 envC5 reqC5 "a" ["b"] rfl rfl rfl (by decide)⟩

/-- C6: a success payload always holds at least one record (and its
total_leads equals its result count); when the engine launches and the
term loop completes without raising, the outcome is the 404 NotFound
condition exactly when zero records were accumulated. -/
theorem empty_result_not_found (env : ScrapeEnv) (req : SearchRequest) :
    (∀ resp tr, scrape_locations env req = (ScrapeOutcome.success resp, tr) →
        resp.results ≠ [] ∧ resp.total_leads = resp.results.length) ∧
    (env.launchOk = true →
      ∀ st tr, scrapeTerms req.num_leads req.search_terms env.termEnvs (initState req) =
          Except.ok (st, tr) →
        ((scrape_locations env req).1 = ScrapeOutcome.notFound ↔ st.results = [])) := by
  constructor
  · intro resp tr h
    by_cases hl : env.launchOk
    · cases hrun : scrapeTerms req.num_leads req.search_terms env.termEnvs (initState req) with
      | error e =>
        cases e
        rw [scrape_locations_error env req hl hrun] at h
        exact absurd h (by simp)
      | ok p =>
        obtain ⟨st, tr'⟩ := p
        rw [scrape_locations_ok_cases env req hl st tr' hrun] at h
        split at h
        · exact absurd h (by simp)
        · rename_i hne
          injection h with h1 h2
          injection h1 with h3
          rw [← h3]
          exact ⟨hne, rfl⟩
    · simp only [Bool.not_eq_true] at hl
      simp [scrape_locations, hl] at h
  · intro hl st tr hrun
    rw [scrape_locations_ok_cases env req hl st tr hrun]
    by_cases he : st.results = []
    · simp [he]
    · simp [he]

/-- A world with one term whose page loads but shows no results. -/
def envEmpty : ScrapeEnv := { launchOk := true, termEnvs := [emptyTermEnv] }

/-- Witness for empty_result_not_found: the concrete successful run
returns a non-empty payload, and the concrete empty run hits 404. -/
theorem empty_result_not_found_witness :
    (respW.results ≠ [] ∧ respW.total_leads = respW.results.length) ∧
    ((scrape_locations envEmpty reqW).1 = ScrapeOutcome.notFound ↔
      (initState reqW).results = []) :=
  ⟨(empty_result_not_found envGood reqW).1 respW trW (by decide),
   (empty_result_not_found envEmpty reqW).2 rfl (initState reqW)
     [Event.openTerm "vape"] rfl⟩

/-- Below quota with room for the whole pass, every listing of the
re-queried collection is extracted, in order. -/
theorem processItems_full (N : Int) (term : String) (items : List ItemEnv)
    (st : ScrapeState) (h : (st.results.length : Int) + items.length ≤ N) :
    (processItems N term items st).2 =
      items.map (fun it => Event.extractEv it.listing.nameEl) := by
  induction items generalizing st with
  | nil => simp [processItems]
  | cons it rest ih =>
    have hq : ¬ N ≤ (st.results.length : Int) := by
      simp only [List.length_cons] at h
      push_cast at h
      omega
    rw [processItems_cons N term it rest st hq, List.map_cons]
    refine congrArg (List.cons (Event.extractEv it.listing.nameEl)) ?_
    refine ih (acceptStep term st (extractItem it)) ?_
    have h2 := (acceptStep_len_le term st (extractItem it)).2
    simp only [List.length_cons] at h
    push_cast at h ⊢
    omega

/-- A pagination round whose load call reports growth and whose
re-query returns the first listing again plus a second one. -/
def growRound : LoadRound :=
  { lm := { initialCount := some 1, scrollOk := true, newCount := some 2 },
    items := [itemA, itemB] }

/-- A world whose term shows one listing, then grows to two, the
first being the already-processed one. -/
def envC8 : ScrapeEnv :=
  { launchOk := true,
    termEnvs := [{ gotoOk := true, initialItems := [itemA], rounds := [growRound] }] }

/-- A five-lead request matching envC8. -/
def reqC8 : SearchRequest :=
  { city := "Austin", state := "TX", num_leads := 5, search_terms := ["t"] }

/-- C8 counterexample: after the pagination driver reports growth, the
already-processed first listing is extracted a second time — its
extract event appears both before and after the load event, so the
post-growth pass is not restricted to newly visible listings. -/
theorem repeat_extract_counterexample :
    (scrape_locations envC8 reqC8).2 =
      [Event.openTerm "t", Event.extractEv (some "A Shop"), Event.loadMoreEv true,
       Event.extractEv (some "A Shop"), Event.extractEv (some "B Shop"),
       Event.loadMoreEv false] ∧
    ((scrape_locations envC8 reqC8).2.count (Event.extractEv (some "A Shop"))) = 2 := by
  exact ⟨by decide, by decide⟩

/-- C8 (amended): when the pagination driver reports growth, the next
extract pass runs over the full re-queried listing collection —
including listings already processed in earlier passes, which are
extracted again; duplicate acceptance is prevented by the dedup sets
(a seen name leaves the state unchanged), not by restricting the pass
to new listings. -/
theorem extract_pass_amended :
    (∀ (N : Int) (term : String) (items : List ItemEnv) (st : ScrapeState),
        (st.results.length : Int) + items.length ≤ N →
        (processItems N term items st).2 =
          items.map (fun it => Event.extractEv it.listing.nameEl)) ∧
    (∀ (term : String) (st : ScrapeState) (info : BusinessInfo),
        info.name ∈ st.existing_names → acceptStep term st (some info) = st) := by
  constructor
  · exact fun N term items st h => processItems_full N term items st h
  · intro term st info h
    simp only [acceptStep]
    rw [if_neg]
    intro hc
    exact hc.2.2 h

/-- Witness for extract_pass_amended: a concrete full pass extracts
both listings in order, and a concrete seen-name candidate is
rejected. -/
theorem extract_pass_amended_witness :
    (processItems 5 "t" [itemA, itemB] st0).2 =
      [itemA, itemB].map (fun it => Event.extractEv it.listing.nameEl) ∧
    acceptStep "t" stQ (some infoA) = stQ :=
  ⟨extract_pass_amended.1 5 "t" [itemA, itemB] st0 (by decide),
   extract_pass_amended.2 "t" stQ infoA (by decide)⟩

/-- C10: for a request with a non-positive num_leads, when the engine
launches, the term loop exits before its first term — no browsing
context is opened and nothing is extracted (the trace is empty) — and
the request terminates with the 404 NotFound outcome whatever the
search terms are. -/
theorem nonpositive_quota_not_found (env : ScrapeEnv) (req : SearchRequest)
    (h1 : req.num_leads ≤ 0) (h2 : env.launchOk = true) :
    scrape_locations env req = (ScrapeOutcome.notFound, []) := by
  have hq : req.num_leads ≤ ((initState req).results.length : Int) := by
    simp [initState]
    omega
  have hrun := scrapeTerms_quota req.num_leads req.search_terms env.termEnvs
    (initState req) hq
  rw [scrape_locations_ok_cases env req h2 (initState req) [] hrun]
  simp [initState]

/-- A world with a working engine and no term data. -/
def envZero : ScrapeEnv := { launchOk := true, termEnvs := [] }

/-- A request with a zero quota. -/
def reqZero : SearchRequest :=
  { city := "Nowhere", state := "ZZ", num_leads := 0, search_terms := ["smoke shop"] }

/-- Witness for nonpositive_quota_not_found at a concrete zero-quota
request. -/
theorem nonpositive_quota_not_found_witness :
    scrape_locations envZero reqZero = (ScrapeOutcome.notFound, []) :=
  nonpositive_quota_not_found envZero reqZero (by decide) rfl
